import Mathlib

/-!
Shallow embedding of the four header files of the `controlsystems2019`
repository (a robotic-arm firmware project):

* `Projects/Arm_Rev_B/main/constants.h`
* `Projects/IMU_Control/main/constants.h`
* `Projects/FPI_Control/main/RTOStasks.h`
* `Projects/MC_Command_Servo/main/RTOStasks.h`

The headers contain only preprocessor constants, `constexpr` constants and
`extern "C"` function prototypes.  Each named constant is rendered as a Lean
definition keeping the source name (C `int` as `Int`, `uint32_t` as `Nat`,
preprocessor hex literals as `Nat`, C `double` as `ℚ` — every `double`
literal in these headers is a decimal value that is exactly representable,
and the headers perform no floating-point arithmetic on them).  In addition,
each header is rendered as a list of declarations in source order, duplicate
`#define`s included, so that structural claims (what kinds of declarations
the source contains, redefinition consistency, cross-header agreement) can
be stated and decided.  In the declaration tables the three decimal `double`
literals are written with `mkRat` (`mkRat 25 10` for `2.5` and so on), which
the kernel can evaluate, instead of Lean's decimal literal notation; the
values are identical.
-/

namespace ControlSystems

/-! Constants of `Projects/Arm_Rev_B/main/constants.h`, in source order.
Names that the header `#define`s twice (`BEGINING_ADDR`, `BNO055_CHIP_ID`,
`BNO055_ACC_ID`, `BNO055_PAGE_ID`, `BNO055_OPR_MODE`, `BNO055_PWR_MODE`,
`BNO055_SYS_TRIGGER`, each time with the same value) appear once here; the
declaration table below keeps both occurrences. -/

namespace ArmRevB

def EEPROM_SIZE : Nat := 0x64

def BEGINING_ADDR : Nat := 0x00

def BNO055_CHIP_ID : Nat := 0x00

def BNO055_ACC_ID : Nat := 0x01

def BNO055_PAGE_ID : Nat := 0x07

def BNO055_ADDR0 : Nat := 0x28

def BNO055_ADDR1 : Nat := 0x29

def BNO055_OPR_MODE : Nat := 0x3D

def BNO055_PWR_MODE : Nat := 0x3E

def BNO055_SYS_TRIGGER : Nat := 0x3F

def act_PHASE : Nat := 5

def act_ENABLE : Nat := 17

def kRotundaPin : Int := 19

def kRotundaPosMin : Int := 0

def kRotundaPosmax : Int := 3600

def kRotundaStartPos : ℚ := 1800

def kRotundaStartDuty : ℚ := 50.0

def kRotundaFreq : ℚ := 50

def kRotundaPWMMin : ℚ := 2.5

def kRotundaPWMMax : ℚ := 12.5

def kElbowPin : Int := 27

def kElbowLimitMin : Int := 100

def kElbowLimitMax : Int := 290

def kElbowRange : ℚ := 300

def kElbowStartPos : ℚ := 150

def kElbowFreq : ℚ := 50

def kElbowPWMMin : ℚ := 2.5

def kElbowPWMMax : ℚ := 12.5

def kMotorFreq : Nat := 5000

def kShoulderSigPin : Nat := 25

def kShoulderDirPin : Nat := 26

def kShoulderLimitMin : ℚ := 5

def kShoulderLimitMax : ℚ := 70

def kShoulderEnablePWMMin : Nat := 0

def kShoulderEnablePWMMax : Nat := 100

def kWristLeftSigPin : Nat := 0

def kWristLeftDirPin : Nat := 2

def kWristRightSigPin : Nat := 16

def kWristRightDirPin : Nat := 4

def kWristPitchLimitMin : ℚ := -90

def kWristPitchLimitMax : ℚ := 90

def kWristEnablePWMMin : Nat := 0

def kWristEnablePWMMax : Nat := 100

def IMU_ADDRESS_SHOULDER : Nat := 0x29

def BNO055_ACC_DATA_X_LSB : Nat := 0x08

def BNO055_ACC_DATA_X_MSB : Nat := 0x09

def BNO055_EUL_YAW_LSB : Nat := 0x1A

def BNO055_EUL_YAW_MSB : Nat := 0x1B

def BNO055_EUL_ROLL_LSB : Nat := 0x1C

def BNO055_EUL_ROLL_MSB : Nat := 0x1D

def BNO055_EUL_PITCH_LSB : Nat := 0x1E

def BNO055_EUL_PITCH_MSB : Nat := 0x1F

def BNO055_UNIT_SEL : Nat := 0x3B

def MPU6050_ACCEL_XOUT_H : Nat := 0x3B

def MPU6050_ACCEL_XOUT_L : Nat := 0x3C

def MPU6050_ACCEL_YOUT_H : Nat := 0x3D

def MPU6050_ACCEL_YOUT_L : Nat := 0x3E

def MPU6050_ACCEL_ZOUT_H : Nat := 0x3F

def MPU6050_ACCEL_ZOUT_L : Nat := 0x40

def MPU6050_TEMP_OUT_H : Nat := 0x41

def MPU6050_TEMP_OUT_L : Nat := 0x42

def MPU6050_GYRO_XOUT_H : Nat := 0x43

def MPU6050_GYRO_XOUT_L : Nat := 0x44

def MPU6050_GYRO_YOUT_H : Nat := 0x45

def MPU6050_GYRO_YOUT_L : Nat := 0x46

def MPU6050_GYRO_ZOUT_H : Nat := 0x47

def MPU6050_GYRO_ZOUT_L : Nat := 0x48

def MPU6050_ADDR0 : Nat := 0x68

def MPU6050_ADDR1 : Nat := 0x69

def MPU6050_PWR_MGMT_1 : Nat := 0x6B

end ArmRevB

/-! Constants of `Projects/IMU_Control/main/constants.h`, in source order. -/

namespace IMUControl

def EEPROM_SIZE : Nat := 0x64

def BEGINING_ADDR : Nat := 0x00

def BNO055_CHIP_ID : Nat := 0x00

def BNO055_ACC_ID : Nat := 0x01

def BNO055_PAGE_ID : Nat := 0x07

def BNO055_ACC_DATA_X_LSB : Nat := 0x08

def BNO055_ACC_DATA_X_MSB : Nat := 0x09

def BNO055_EUL_YAW_LSB : Nat := 0x1A

def BNO055_EUL_YAW_MSB : Nat := 0x1B

def BNO055_EUL_ROLL_LSB : Nat := 0x1C

def BNO055_EUL_ROLL_MSB : Nat := 0x1D

def BNO055_EUL_PITCH_LSB : Nat := 0x1E

def BNO055_EUL_PITCH_MSB : Nat := 0x1F

def BNO055_UNIT_SEL : Nat := 0x3B

def BNO055_OPR_MODE : Nat := 0x3D

def BNO055_PWR_MODE : Nat := 0x3E

def BNO055_SYS_TRIGGER : Nat := 0x3F

def IMU_ADDRESS_SHOULDER : Nat := 0x29

def MPU6050_ACCEL_XOUT_H : Nat := 0x3B

def MPU6050_ACCEL_XOUT_L : Nat := 0x3C

def MPU6050_ACCEL_YOUT_H : Nat := 0x3D

def MPU6050_ACCEL_YOUT_L : Nat := 0x3E

def MPU6050_ACCEL_ZOUT_H : Nat := 0x3F

def MPU6050_ACCEL_ZOUT_L : Nat := 0x40

def MPU6050_TEMP_OUT_H : Nat := 0x41

def MPU6050_TEMP_OUT_L : Nat := 0x42

def MPU6050_GYRO_XOUT_H : Nat := 0x43

def MPU6050_GYRO_XOUT_L : Nat := 0x44

def MPU6050_GYRO_YOUT_H : Nat := 0x45

def MPU6050_GYRO_YOUT_L : Nat := 0x46

def MPU6050_GYRO_ZOUT_H : Nat := 0x47

def MPU6050_GYRO_ZOUT_L : Nat := 0x48

def MPU6050_ADDR0 : Nat := 0x68

def MPU6050_ADDR1 : Nat := 0x69

def MPU6050_PWR_MGMT_1 : Nat := 0x6B

end IMUControl

/-- The parameter and return types occurring in the headers' function
prototypes: `void` and `void *`. -/
inductive CTy where
  | void
  | voidPtr
  deriving DecidableEq

/-- Linkage of a declaration: `extern "C"` or plain C++ linkage. -/
inductive Linkage where
  | c
  | cpp
  deriving DecidableEq

/-- A top-level declaration of one of the four headers: a preprocessor
`#define` of a numeric constant, a `constexpr` constant, or a function
declaration with its linkage, return type, parameter types and whether the
source supplies a body for it. -/
inductive CppDecl where
  | define (name : String) (value : ℚ)
  | constexprVal (name : String) (value : ℚ)
  | funDecl (name : String) (link : Linkage) (ret : CTy) (params : List CTy) (hasBody : Bool)
  deriving DecidableEq

/-- Whether a declaration is a constant (`#define` or `constexpr`). -/
def isConstDecl : CppDecl → Bool
  | .define _ _ => true
  | .constexprVal _ _ => true
  | .funDecl _ _ _ _ _ => false

/-- The (name, value) entry of a constant declaration, if any. -/
def constEntry : CppDecl → Option (String × ℚ)
  | .define n v => some (n, v)
  | .constexprVal n v => some (n, v)
  | .funDecl _ _ _ _ _ => none

/-- The (name, value) entry of a `#define`, if any. -/
def defineEntry : CppDecl → Option (String × ℚ)
  | .define n v => some (n, v)
  | _ => none

/-- Whether a declaration carries a function body. -/
def hasBodyOf : CppDecl → Bool
  | .funDecl _ _ _ _ b => b
  | _ => false

/-- All constant entries of a declaration list, in source order. -/
def constantsOf (ds : List CppDecl) : List (String × ℚ) := ds.filterMap constEntry

/-- All `#define` entries of a declaration list, in source order. -/
def definesOf (ds : List CppDecl) : List (String × ℚ) := ds.filterMap defineEntry

set_option maxHeartbeats 1600000 in
/-- `Projects/Arm_Rev_B/main/constants.h` as a declaration list, in source
order, duplicate `#define`s included (the header repeats `BEGINING_ADDR`,
`BNO055_CHIP_ID`, `BNO055_ACC_ID`, `BNO055_PAGE_ID`, `BNO055_OPR_MODE`,
`BNO055_PWR_MODE` and `BNO055_SYS_TRIGGER`). -/
def armRevBConstantsH : List CppDecl := [
  .define "EEPROM_SIZE" 0x64,
  .define "BEGINING_ADDR" 0x00,
  .define "BNO055_CHIP_ID" 0x00,
  .define "BNO055_ACC_ID" 0x01,
  .define "BNO055_PAGE_ID" 0x07,
  .define "BNO055_ADDR0" 0x28,
  .define "BNO055_ADDR1" 0x29,
  .define "BNO055_OPR_MODE" 0x3D,
  .define "BNO055_PWR_MODE" 0x3E,
  .define "BNO055_SYS_TRIGGER" 0x3F,
  .define "act_PHASE" 5,
  .define "act_ENABLE" 17,
  .constexprVal "kRotundaPin" 19,
  .constexprVal "kRotundaPosMin" 0,
  .constexprVal "kRotundaPosmax" 3600,
  .constexprVal "kRotundaStartPos" 1800,
  .constexprVal "kRotundaStartDuty" (mkRat 500 10),
  .constexprVal "kRotundaFreq" 50,
  .constexprVal "kRotundaPWMMin" (mkRat 25 10),
  .constexprVal "kRotundaPWMMax" (mkRat 125 10),
  .constexprVal "kElbowPin" 27,
  .constexprVal "kElbowLimitMin" 100,
  .constexprVal "kElbowLimitMax" 290,
  .constexprVal "kElbowRange" 300,
  .constexprVal "kElbowStartPos" 150,
  .constexprVal "kElbowFreq" 50,
  .constexprVal "kElbowPWMMin" (mkRat 25 10),
  .constexprVal "kElbowPWMMax" (mkRat 125 10),
  .constexprVal "kMotorFreq" 5000,
  .constexprVal "kShoulderSigPin" 25,
  .constexprVal "kShoulderDirPin" 26,
  .constexprVal "kShoulderLimitMin" 5,
  .constexprVal "kShoulderLimitMax" 70,
  .constexprVal "kShoulderEnablePWMMin" 0,
  .constexprVal "kShoulderEnablePWMMax" 100,
  .constexprVal "kWristLeftSigPin" 0,
  .constexprVal "kWristLeftDirPin" 2,
  .constexprVal "kWristRightSigPin" 16,
  .constexprVal "kWristRightDirPin" 4,
  .constexprVal "kWristPitchLimitMin" (-90),
  .constexprVal "kWristPitchLimitMax" 90,
  .constexprVal "kWristEnablePWMMin" 0,
  .constexprVal "kWristEnablePWMMax" 100,
  .define "IMU_ADDRESS_SHOULDER" 0x29,
  .define "BEGINING_ADDR" 0x00,
  .define "BNO055_CHIP_ID" 0x00,
  .define "BNO055_ACC_ID" 0x01,
  .define "BNO055_PAGE_ID" 0x07,
  .define "BNO055_ACC_DATA_X_LSB" 0x08,
  .define "BNO055_ACC_DATA_X_MSB" 0x09,
  .define "BNO055_EUL_YAW_LSB" 0x1A,
  .define "BNO055_EUL_YAW_MSB" 0x1B,
  .define "BNO055_EUL_ROLL_LSB" 0x1C,
  .define "BNO055_EUL_ROLL_MSB" 0x1D,
  .define "BNO055_EUL_PITCH_LSB" 0x1E,
  .define "BNO055_EUL_PITCH_MSB" 0x1F,
  .define "BNO055_UNIT_SEL" 0x3B,
  .define "BNO055_OPR_MODE" 0x3D,
  .define "BNO055_PWR_MODE" 0x3E,
  .define "BNO055_SYS_TRIGGER" 0x3F,
  .define "MPU6050_ACCEL_XOUT_H" 0x3B,
  .define "MPU6050_ACCEL_XOUT_L" 0x3C,
  .define "MPU6050_ACCEL_YOUT_H" 0x3D,
  .define "MPU6050_ACCEL_YOUT_L" 0x3E,
  .define "MPU6050_ACCEL_ZOUT_H" 0x3F,
  .define "MPU6050_ACCEL_ZOUT_L" 0x40,
  .define "MPU6050_TEMP_OUT_H" 0x41,
  .define "MPU6050_TEMP_OUT_L" 0x42,
  .define "MPU6050_GYRO_XOUT_H" 0x43,
  .define "MPU6050_GYRO_XOUT_L" 0x44,
  .define "MPU6050_GYRO_YOUT_H" 0x45,
  .define "MPU6050_GYRO_YOUT_L" 0x46,
  .define "MPU6050_GYRO_ZOUT_H" 0x47,
  .define "MPU6050_GYRO_ZOUT_L" 0x48,
  .define "MPU6050_ADDR0" 0x68,
  .define "MPU6050_ADDR1" 0x69,
  .define "MPU6050_PWR_MGMT_1" 0x6B]

/-- `Projects/IMU_Control/main/constants.h` as a declaration list, in source
order. -/
def imuControlConstantsH : List CppDecl := [
  .define "EEPROM_SIZE" 0x64,
  .define "BEGINING_ADDR" 0x00,
  .define "BNO055_CHIP_ID" 0x00,
  .define "BNO055_ACC_ID" 0x01,
  .define "BNO055_PAGE_ID" 0x07,
  .define "BNO055_ACC_DATA_X_LSB" 0x08,
  .define "BNO055_ACC_DATA_X_MSB" 0x09,
  .define "BNO055_EUL_YAW_LSB" 0x1A,
  .define "BNO055_EUL_YAW_MSB" 0x1B,
  .define "BNO055_EUL_ROLL_LSB" 0x1C,
  .define "BNO055_EUL_ROLL_MSB" 0x1D,
  .define "BNO055_EUL_PITCH_LSB" 0x1E,
  .define "BNO055_EUL_PITCH_MSB" 0x1F,
  .define "BNO055_UNIT_SEL" 0x3B,
  .define "BNO055_OPR_MODE" 0x3D,
  .define "BNO055_PWR_MODE" 0x3E,
  .define "BNO055_SYS_TRIGGER" 0x3F,
  .define "IMU_ADDRESS_SHOULDER" 0x29,
  .define "MPU6050_ACCEL_XOUT_H" 0x3B,
  .define "MPU6050_ACCEL_XOUT_L" 0x3C,
  .define "MPU6050_ACCEL_YOUT_H" 0x3D,
  .define "MPU6050_ACCEL_YOUT_L" 0x3E,
  .define "MPU6050_ACCEL_ZOUT_H" 0x3F,
  .define "MPU6050_ACCEL_ZOUT_L" 0x40,
  .define "MPU6050_TEMP_OUT_H" 0x41,
  .define "MPU6050_TEMP_OUT_L" 0x42,
  .define "MPU6050_GYRO_XOUT_H" 0x43,
  .define "MPU6050_GYRO_XOUT_L" 0x44,
  .define "MPU6050_GYRO_YOUT_H" 0x45,
  .define "MPU6050_GYRO_YOUT_L" 0x46,
  .define "MPU6050_GYRO_ZOUT_H" 0x47,
  .define "MPU6050_GYRO_ZOUT_L" 0x48,
  .define "MPU6050_ADDR0" 0x68,
  .define "MPU6050_ADDR1" 0x69,
  .define "MPU6050_PWR_MGMT_1" 0x6B]

/-- `Projects/FPI_Control/main/RTOStasks.h` as a declaration list: one
`extern "C" void vFPITask(void *pvParameters);` prototype with no body. -/
def fpiControlRTOStasksH : List CppDecl :=
  [.funDecl "vFPITask" .c .void [.voidPtr] false]

/-- `Projects/MC_Command_Servo/main/RTOStasks.h` as a declaration list: six
`extern "C" void ...(void *);` prototypes in source order, none with a
body. -/
def mcCommandServoRTOStasksH : List CppDecl := [
  .funDecl "vCountTask" .c .void [.voidPtr] false,
  .funDecl "vRotundaTask" .c .void [.voidPtr] false,
  .funDecl "vElbowTask" .c .void [.voidPtr] false,
  .funDecl "vShoulderTask" .c .void [.voidPtr] false,
  .funDecl "vDiffGearboxTask" .c .void [.voidPtr] false,
  .funDecl "vClawTask" .c .void [.voidPtr] false]

/-- All declarations of the four supplied source files. -/
def allDecls : List CppDecl :=
  armRevBConstantsH ++ imuControlConstantsH ++ fpiControlRTOStasksH ++
    mcCommandServoRTOStasksH

/-- The seven RTOS task entry-point names declared across the two
`RTOStasks.h` headers. -/
def taskNames : List String :=
  ["vFPITask", "vCountTask", "vRotundaTask", "vElbowTask", "vShoulderTask",
   "vDiffGearboxTask", "vClawTask"]

/-- Claim C1: for each of the two IMU chip families, the supplied constants
headers define two I2C bus addresses per chip — BNO055 at ADDR0 = 0x28 and
ADDR1 = 0x29, MPU6050 at ADDR0 = 0x68 and ADDR1 = 0x69 — with the two
addresses of each chip distinct and differing by exactly one. -/
theorem c1_dual_imu_addresses :
    ArmRevB.BNO055_ADDR0 = 0x28 ∧ ArmRevB.BNO055_ADDR1 = 0x29 ∧
    ArmRevB.MPU6050_ADDR0 = 0x68 ∧ ArmRevB.MPU6050_ADDR1 = 0x69 ∧
    IMUControl.MPU6050_ADDR0 = 0x68 ∧ IMUControl.MPU6050_ADDR1 = 0x69 ∧
    ArmRevB.BNO055_ADDR0 ≠ ArmRevB.BNO055_ADDR1 ∧
    ArmRevB.BNO055_ADDR1 = ArmRevB.BNO055_ADDR0 + 1 ∧
    ArmRevB.MPU6050_ADDR0 ≠ ArmRevB.MPU6050_ADDR1 ∧
    ArmRevB.MPU6050_ADDR1 = ArmRevB.MPU6050_ADDR0 + 1 ∧
    IMUControl.MPU6050_ADDR0 ≠ IMUControl.MPU6050_ADDR1 ∧
    IMUControl.MPU6050_ADDR1 = IMUControl.MPU6050_ADDR0 + 1 := by
  decide

set_option maxRecDepth 8192 in
/-- Claim C2: the seven task entry points are each declared with C linkage
and signature `void(void *)`, none has a body anywhere in the supplied
source, and the source consists only of `#define`/`constexpr` constants and
these empty prototypes. -/
theorem c2_task_prototypes_only :
    (∀ n ∈ taskNames,
      CppDecl.funDecl n .c .void [.voidPtr] false ∈ allDecls) ∧
    (∀ d ∈ allDecls, isConstDecl d = true ∨
      ∃ n ∈ taskNames, d = CppDecl.funDecl n .c .void [.voidPtr] false) := by
  decide

/-- Witness for C2 at the concrete task name `vClawTask`. -/
theorem c2_task_prototypes_only_witness :
    CppDecl.funDecl "vClawTask" .c .void [.voidPtr] false ∈ allDecls :=
  c2_task_prototypes_only.1 "vClawTask" (by decide)

set_option maxRecDepth 8192 in
/-- Claim C3: `EEPROM_SIZE` equals 100 bytes (0x64) and `BEGINING_ADDR`
equals 0x00 in every constants header that defines them (every occurrence,
the duplicate `BEGINING_ADDR` definition included). -/
theorem c3_eeprom_constants :
    ("EEPROM_SIZE", (100 : ℚ)) ∈ definesOf armRevBConstantsH ∧
    ("EEPROM_SIZE", (100 : ℚ)) ∈ definesOf imuControlConstantsH ∧
    ("BEGINING_ADDR", (0 : ℚ)) ∈ definesOf armRevBConstantsH ∧
    ("BEGINING_ADDR", (0 : ℚ)) ∈ definesOf imuControlConstantsH ∧
    (∀ p ∈ definesOf armRevBConstantsH ++ definesOf imuControlConstantsH,
      (p.1 = "EEPROM_SIZE" → p.2 = 100) ∧ (p.1 = "BEGINING_ADDR" → p.2 = 0)) := by
  decide

/-- Witness for C3 at the concrete entry ("EEPROM_SIZE", 100). -/
theorem c3_eeprom_constants_witness :
    (("EEPROM_SIZE", (100 : ℚ))).2 = 100 :=
  (c3_eeprom_constants.2.2.2.2 ("EEPROM_SIZE", (100 : ℚ)) (by decide)).1 (by decide)

/-- Claim C4: the BNO055 register map has chip id 0x00, accelerometer id
0x01, page id 0x07, the six Euler-angle registers at the consecutive
addresses 0x1A–0x1F with each MSB register one above its LSB register, unit
selection 0x3B, operation mode 0x3D, power mode 0x3E, system trigger 0x3F;
and the MPU6050 data registers occupy the consecutive addresses 0x3B–0x48
with each low-byte register one above its high-byte register, with
PWR_MGMT_1 = 0x6B.  The relations hold in both constants headers. -/
theorem c4_register_maps :
    ArmRevB.BNO055_CHIP_ID = 0x00 ∧ ArmRevB.BNO055_ACC_ID = 0x01 ∧
    ArmRevB.BNO055_PAGE_ID = 0x07 ∧
    ArmRevB.BNO055_EUL_YAW_LSB = 0x1A ∧
    ArmRevB.BNO055_EUL_YAW_MSB = ArmRevB.BNO055_EUL_YAW_LSB + 1 ∧
    ArmRevB.BNO055_EUL_ROLL_LSB = ArmRevB.BNO055_EUL_YAW_MSB + 1 ∧
    ArmRevB.BNO055_EUL_ROLL_MSB = ArmRevB.BNO055_EUL_ROLL_LSB + 1 ∧
    ArmRevB.BNO055_EUL_PITCH_LSB = ArmRevB.BNO055_EUL_ROLL_MSB + 1 ∧
    ArmRevB.BNO055_EUL_PITCH_MSB = ArmRevB.BNO055_EUL_PITCH_LSB + 1 ∧
    ArmRevB.BNO055_EUL_PITCH_MSB = 0x1F ∧
    ArmRevB.BNO055_UNIT_SEL = 0x3B ∧ ArmRevB.BNO055_OPR_MODE = 0x3D ∧
    ArmRevB.BNO055_PWR_MODE = 0x3E ∧ ArmRevB.BNO055_SYS_TRIGGER = 0x3F ∧
    ArmRevB.MPU6050_ACCEL_XOUT_H = 0x3B ∧
    ArmRevB.MPU6050_ACCEL_XOUT_L = ArmRevB.MPU6050_ACCEL_XOUT_H + 1 ∧
    ArmRevB.MPU6050_ACCEL_YOUT_H = ArmRevB.MPU6050_ACCEL_XOUT_L + 1 ∧
    ArmRevB.MPU6050_ACCEL_YOUT_L = ArmRevB.MPU6050_ACCEL_YOUT_H + 1 ∧
    ArmRevB.MPU6050_ACCEL_ZOUT_H = ArmRevB.MPU6050_ACCEL_YOUT_L + 1 ∧
    ArmRevB.MPU6050_ACCEL_ZOUT_L = ArmRevB.MPU6050_ACCEL_ZOUT_H + 1 ∧
    ArmRevB.MPU6050_TEMP_OUT_H = ArmRevB.MPU6050_ACCEL_ZOUT_L + 1 ∧
    ArmRevB.MPU6050_TEMP_OUT_L = ArmRevB.MPU6050_TEMP_OUT_H + 1 ∧
    ArmRevB.MPU6050_GYRO_XOUT_H = ArmRevB.MPU6050_TEMP_OUT_L + 1 ∧
    ArmRevB.MPU6050_GYRO_XOUT_L = ArmRevB.MPU6050_GYRO_XOUT_H + 1 ∧
    ArmRevB.MPU6050_GYRO_YOUT_H = ArmRevB.MPU6050_GYRO_XOUT_L + 1 ∧
    ArmRevB.MPU6050_GYRO_YOUT_L = ArmRevB.MPU6050_GYRO_YOUT_H + 1 ∧
    ArmRevB.MPU6050_GYRO_ZOUT_H = ArmRevB.MPU6050_GYRO_YOUT_L + 1 ∧
    ArmRevB.MPU6050_GYRO_ZOUT_L = ArmRevB.MPU6050_GYRO_ZOUT_H + 1 ∧
    ArmRevB.MPU6050_GYRO_ZOUT_L = 0x48 ∧ ArmRevB.MPU6050_PWR_MGMT_1 = 0x6B ∧
    IMUControl.BNO055_CHIP_ID = 0x00 ∧ IMUControl.BNO055_ACC_ID = 0x01 ∧
    IMUControl.BNO055_PAGE_ID = 0x07 ∧
    IMUControl.BNO055_EUL_YAW_LSB = 0x1A ∧
    IMUControl.BNO055_EUL_YAW_MSB = IMUControl.BNO055_EUL_YAW_LSB + 1 ∧
    IMUControl.BNO055_EUL_ROLL_LSB = IMUControl.BNO055_EUL_YAW_MSB + 1 ∧
    IMUControl.BNO055_EUL_ROLL_MSB = IMUControl.BNO055_EUL_ROLL_LSB + 1 ∧
    IMUControl.BNO055_EUL_PITCH_LSB = IMUControl.BNO055_EUL_ROLL_MSB + 1 ∧
    IMUControl.BNO055_EUL_PITCH_MSB = IMUControl.BNO055_EUL_PITCH_LSB + 1 ∧
    IMUControl.BNO055_EUL_PITCH_MSB = 0x1F ∧
    IMUControl.BNO055_UNIT_SEL = 0x3B ∧ IMUControl.BNO055_OPR_MODE = 0x3D ∧
    IMUControl.BNO055_PWR_MODE = 0x3E ∧ IMUControl.BNO055_SYS_TRIGGER = 0x3F ∧
    IMUControl.MPU6050_ACCEL_XOUT_H = 0x3B ∧
    IMUControl.MPU6050_ACCEL_XOUT_L = 0x3C ∧
    IMUControl.MPU6050_ACCEL_YOUT_H = 0x3D ∧
    IMUControl.MPU6050_ACCEL_YOUT_L = 0x3E ∧
    IMUControl.MPU6050_ACCEL_ZOUT_H = 0x3F ∧
    IMUControl.MPU6050_ACCEL_ZOUT_L = 0x40 ∧
    IMUControl.MPU6050_TEMP_OUT_H = 0x41 ∧
    IMUControl.MPU6050_TEMP_OUT_L = 0x42 ∧
    IMUControl.MPU6050_GYRO_XOUT_H = 0x43 ∧
    IMUControl.MPU6050_GYRO_XOUT_L = 0x44 ∧
    IMUControl.MPU6050_GYRO_YOUT_H = 0x45 ∧
    IMUControl.MPU6050_GYRO_YOUT_L = 0x46 ∧
    IMUControl.MPU6050_GYRO_ZOUT_H = 0x47 ∧
    IMUControl.MPU6050_GYRO_ZOUT_L = 0x48 ∧
    IMUControl.MPU6050_PWR_MGMT_1 = 0x6B := by
  decide

/-- Claim C5: every joint's duty-cycle minimum is strictly below its
duty-cycle maximum and every position/angle limit minimum is strictly below
the limit maximum — rotunda 2.5 < 12.5 and 0 < 3600, elbow 2.5 < 12.5 and
100 < 290 (within its range constant 300), shoulder 0 < 100 and 5 < 70,
wrist 0 < 100 and -90 < 90 — and every frequency constant is positive
(rotunda 50, elbow 50, motor 5000). -/
theorem c5_pwm_bounds_ordered :
    ArmRevB.kRotundaPWMMin = 2.5 ∧ ArmRevB.kRotundaPWMMax = 12.5 ∧
    ArmRevB.kRotundaPWMMin < ArmRevB.kRotundaPWMMax ∧
    ArmRevB.kRotundaPosMin = 0 ∧ ArmRevB.kRotundaPosmax = 3600 ∧
    ArmRevB.kRotundaPosMin < ArmRevB.kRotundaPosmax ∧
    ArmRevB.kElbowPWMMin = 2.5 ∧ ArmRevB.kElbowPWMMax = 12.5 ∧
    ArmRevB.kElbowPWMMin < ArmRevB.kElbowPWMMax ∧
    ArmRevB.kElbowLimitMin = 100 ∧ ArmRevB.kElbowLimitMax = 290 ∧
    ArmRevB.kElbowLimitMin < ArmRevB.kElbowLimitMax ∧
    ArmRevB.kElbowRange = 300 ∧
    (ArmRevB.kElbowLimitMax : ℚ) ≤ ArmRevB.kElbowRange ∧
    ArmRevB.kShoulderEnablePWMMin = 0 ∧ ArmRevB.kShoulderEnablePWMMax = 100 ∧
    ArmRevB.kShoulderEnablePWMMin < ArmRevB.kShoulderEnablePWMMax ∧
    ArmRevB.kShoulderLimitMin = 5 ∧ ArmRevB.kShoulderLimitMax = 70 ∧
    ArmRevB.kShoulderLimitMin < ArmRevB.kShoulderLimitMax ∧
    ArmRevB.kWristEnablePWMMin = 0 ∧ ArmRevB.kWristEnablePWMMax = 100 ∧
    ArmRevB.kWristEnablePWMMin < ArmRevB.kWristEnablePWMMax ∧
    ArmRevB.kWristPitchLimitMin = -90 ∧ ArmRevB.kWristPitchLimitMax = 90 ∧
    ArmRevB.kWristPitchLimitMin < ArmRevB.kWristPitchLimitMax ∧
    0 < ArmRevB.kRotundaFreq ∧ ArmRevB.kRotundaFreq = 50 ∧
    0 < ArmRevB.kElbowFreq ∧ ArmRevB.kElbowFreq = 50 ∧
    0 < ArmRevB.kMotorFreq ∧ ArmRevB.kMotorFreq = 5000 := by
  norm_num [ArmRevB.kRotundaPWMMin, ArmRevB.kRotundaPWMMax,
    ArmRevB.kRotundaPosMin, ArmRevB.kRotundaPosmax, ArmRevB.kElbowPWMMin,
    ArmRevB.kElbowPWMMax, ArmRevB.kElbowLimitMin, ArmRevB.kElbowLimitMax,
    ArmRevB.kElbowRange, ArmRevB.kShoulderEnablePWMMin,
    ArmRevB.kShoulderEnablePWMMax, ArmRevB.kShoulderLimitMin,
    ArmRevB.kShoulderLimitMax, ArmRevB.kWristEnablePWMMin,
    ArmRevB.kWristEnablePWMMax, ArmRevB.kWristPitchLimitMin,
    ArmRevB.kWristPitchLimitMax, ArmRevB.kRotundaFreq, ArmRevB.kElbowFreq,
    ArmRevB.kMotorFreq]

/-- Claim C6: the Arm_Rev_B constants header assigns GPIO pins rotunda 19,
elbow 27, shoulder signal 25 with direction 26, wrist left signal 0 with
direction 2, wrist right signal 16 with direction 4, and the actuator
phase/enable pair act_PHASE = 5 and act_ENABLE = 17. -/
theorem c6_gpio_pins :
    ArmRevB.kRotundaPin = 19 ∧ ArmRevB.kElbowPin = 27 ∧
    ArmRevB.kShoulderSigPin = 25 ∧ ArmRevB.kShoulderDirPin = 26 ∧
    ArmRevB.kWristLeftSigPin = 0 ∧ ArmRevB.kWristLeftDirPin = 2 ∧
    ArmRevB.kWristRightSigPin = 16 ∧ ArmRevB.kWristRightDirPin = 4 ∧
    ArmRevB.act_PHASE = 5 ∧ ArmRevB.act_ENABLE = 17 := by
  decide

set_option maxRecDepth 8192 in
/-- Claim C7: every constant of the supplied headers is an immutable
compile-time value.  In the embedding each constant is a pure Lean value, so
evaluation is pure and deterministic by construction, and no declaration of
the four files is an assignment or mutation (they are constants and bodiless
prototypes only).  The contentful part — any two reads (occurrences) of the
same constant name within a header yield the same value, the headers'
duplicate `#define`s included — is stated here over the full declaration
tables. -/
theorem c7_constant_reads_deterministic :
    (∀ p ∈ constantsOf armRevBConstantsH, ∀ q ∈ constantsOf armRevBConstantsH,
      p.1 = q.1 → p.2 = q.2) ∧
    (∀ p ∈ constantsOf imuControlConstantsH,
      ∀ q ∈ constantsOf imuControlConstantsH, p.1 = q.1 → p.2 = q.2) ∧
    (∀ d ∈ allDecls, hasBodyOf d = false) := by
  decide

/-- Witness for C7 at the twice-defined constant `BEGINING_ADDR`. -/
theorem c7_constant_reads_deterministic_witness :
    (("BEGINING_ADDR", (0 : ℚ))).2 = (("BEGINING_ADDR", (0 : ℚ))).2 :=
  c7_constant_reads_deterministic.1 ("BEGINING_ADDR", (0 : ℚ)) (by decide)
    ("BEGINING_ADDR", (0 : ℚ)) (by decide) (by decide)

set_option maxRecDepth 8192 in
/-- Claim C8: every name defined in both constants headers is defined with
the same numeric value in the two headers. -/
theorem c8_shared_defines_agree :
    ∀ p ∈ definesOf armRevBConstantsH, ∀ q ∈ definesOf imuControlConstantsH,
      p.1 = q.1 → p.2 = q.2 := by
  decide

/-- Witness for C8 at the shared define `EEPROM_SIZE`. -/
theorem c8_shared_defines_agree_witness :
    (("EEPROM_SIZE", (100 : ℚ))).2 = (("EEPROM_SIZE", (100 : ℚ))).2 :=
  c8_shared_defines_agree ("EEPROM_SIZE", (100 : ℚ)) (by decide)
    ("EEPROM_SIZE", (100 : ℚ)) (by decide) (by decide)

/-- Claim C9: each joint's start position lies within its configured
limits — kRotundaStartPos = 1800 lies in [0, 3600], exactly at the midpoint,
and kElbowStartPos = 150 lies in [100, 290]. -/
theorem c9_start_positions_within_limits :
    (ArmRevB.kRotundaPosMin : ℚ) ≤ ArmRevB.kRotundaStartPos ∧
    ArmRevB.kRotundaStartPos ≤ (ArmRevB.kRotundaPosmax : ℚ) ∧
    ArmRevB.kRotundaStartPos =
      ((ArmRevB.kRotundaPosMin : ℚ) + (ArmRevB.kRotundaPosmax : ℚ)) / 2 ∧
    (ArmRevB.kElbowLimitMin : ℚ) ≤ ArmRevB.kElbowStartPos ∧
    ArmRevB.kElbowStartPos ≤ (ArmRevB.kElbowLimitMax : ℚ) := by
  norm_num [ArmRevB.kRotundaPosMin, ArmRevB.kRotundaPosmax,
    ArmRevB.kRotundaStartPos, ArmRevB.kElbowLimitMin, ArmRevB.kElbowLimitMax,
    ArmRevB.kElbowStartPos]

/-- Claim C10: IMU_ADDRESS_SHOULDER (0x29) equals the BNO055 secondary
address BNO055_ADDR1 and differs from BNO055_ADDR0 (0x28) and from both
MPU6050 addresses (0x68, 0x69), in both headers that define it. -/
theorem c10_shoulder_imu_address :
    ArmRevB.IMU_ADDRESS_SHOULDER = 0x29 ∧
    ArmRevB.IMU_ADDRESS_SHOULDER = ArmRevB.BNO055_ADDR1 ∧
    IMUControl.IMU_ADDRESS_SHOULDER = ArmRevB.BNO055_ADDR1 ∧
    ArmRevB.IMU_ADDRESS_SHOULDER ≠ ArmRevB.BNO055_ADDR0 ∧
    ArmRevB.IMU_ADDRESS_SHOULDER ≠ ArmRevB.MPU6050_ADDR0 ∧
    ArmRevB.IMU_ADDRESS_SHOULDER ≠ ArmRevB.MPU6050_ADDR1 ∧
    IMUControl.IMU_ADDRESS_SHOULDER ≠ IMUControl.MPU6050_ADDR0 ∧
    IMUControl.IMU_ADDRESS_SHOULDER ≠ IMUControl.MPU6050_ADDR1 := by
  decide

end ControlSystems
